import Mathlib

/-!
Shallow embedding of the metrics repository (pipeline orchestrator,
batch evaluation runner, metrics aggregator) and verification of the
specification claims against it.

Conventions of the embedding:
- Python exceptions are modelled with `Except String`: a raised exception
  is `Except.error msg`, a normal return is `Except.ok v`.
- The external collaborators imported by pipeline_service.py
  (get_completion_from_messages, execute_sql, refine_sql) and by evals.py
  (fetch_context, handle_query) are opaque capabilities, modelled as
  function parameters.
- Result rows are opaque values, modelled as strings.
-/

/-- Result rows returned by SQL execution, treated as opaque values. -/
abbrev Row := String

/-- The outcome dictionary returned by generate_refine_execute in
src/pipeline_service.py. Field names follow the dictionary keys in the
source; the status key is literally named pipeline_status there. -/
structure PipelineOutcome where
  initial_sql : Option String
  refined_sql : Option String
  final_sql : Option String
  pipeline_status : String
  error : Option String
  rows : Option (List Row)
  deriving Repr, DecidableEq

/-- Embedding of generate_refine_execute from src/pipeline_service.py.

The source:
1. awaits get_completion_from_messages(system_message, question) with NO
   try around it (the call sits before the try block), so a generation
   failure propagates;
2. tries execute_sql(initial_sql); on success returns the
   pipeline_status = "success" dictionary;
3. on execution failure awaits refine_sql(initial_sql, question) — two
   arguments, the caught execution error is not passed — again with NO
   try around it, so a refiner failure propagates;
4. tries execute_sql(refined_sql); on success returns the
   "refined_success" dictionary, on failure the "failed" dictionary with
   error = str(err2). -/
def generate_refine_execute
    (get_completion_from_messages : String → String → Except String String)
    (execute_sql : String → Except String (List Row))
    (refine_sql : String → String → Except String String)
    (system_message question : String) : Except String PipelineOutcome :=
  match get_completion_from_messages system_message question with
  | .error e => .error e
  | .ok initial_sql =>
    match execute_sql initial_sql with
    | .ok result =>
        .ok { initial_sql := some initial_sql
              refined_sql := none
              final_sql := some initial_sql
              pipeline_status := "success"
              error := none
              rows := some result }
    | .error _err =>
      match refine_sql initial_sql question with
      | .error e => .error e
      | .ok refined_sql =>
        match execute_sql refined_sql with
        | .ok result =>
            .ok { initial_sql := some initial_sql
                  refined_sql := some refined_sql
                  final_sql := some refined_sql
                  pipeline_status := "refined_success"
                  error := none
                  rows := some result }
        | .error err2 =>
            .ok { initial_sql := some initial_sql
                  refined_sql := some refined_sql
                  final_sql := none
                  pipeline_status := "failed"
                  error := some err2
                  rows := none }

/-- Case analysis helper: every outcome the orchestrator actually returns
comes from exactly one of the three return statements in the source. -/
theorem gre_cases
    (g : String → String → Except String String)
    (ex : String → Except String (List Row))
    (r : String → String → Except String String)
    (sys q : String) (out : PipelineOutcome)
    (h : generate_refine_execute g ex r sys q = .ok out) :
    (∃ sql rows, g sys q = .ok sql ∧ ex sql = .ok rows ∧
        out = ⟨some sql, none, some sql, "success", none, some rows⟩) ∨
    (∃ sql e rf rows, g sys q = .ok sql ∧ ex sql = .error e ∧
        r sql q = .ok rf ∧ ex rf = .ok rows ∧
        out = ⟨some sql, some rf, some rf, "refined_success", none, some rows⟩) ∨
    (∃ sql e rf e2, g sys q = .ok sql ∧ ex sql = .error e ∧
        r sql q = .ok rf ∧ ex rf = .error e2 ∧
        out = ⟨some sql, some rf, none, "failed", some e2, none⟩) := by
  unfold generate_refine_execute at h
  cases hg : g sys q with
  | error e => rw [hg] at h; cases h
  | ok sql =>
    rw [hg] at h
    dsimp only at h
    cases he : ex sql with
    | ok rows =>
      rw [he] at h
      dsimp only at h
      cases h
      exact Or.inl ⟨sql, rows, rfl, he, rfl⟩
    | error e =>
      rw [he] at h
      dsimp only at h
      cases hr : r sql q with
      | error e2 => rw [hr] at h; cases h
      | ok rf =>
        rw [hr] at h
        dsimp only at h
        cases he2 : ex rf with
        | ok rows =>
          rw [he2] at h
          dsimp only at h
          cases h
          exact Or.inr (Or.inl ⟨sql, e, rf, rows, rfl, he, hr, he2, rfl⟩)
        | error e2 =>
          rw [he2] at h
          dsimp only at h
          cases h
          exact Or.inr (Or.inr ⟨sql, e, rf, e2, rfl, he, hr, he2, rfl⟩)

/-! Concrete collaborator functions used in counterexamples and witnesses. -/

/-- Generator that always raises. -/
def genBoom : String → String → Except String String := fun _ _ => .error "generation boom"

/-- Generator that always returns the SQL text "SQL0". -/
def genSQL0 : String → String → Except String String := fun _ _ => .ok "SQL0"

/-- Executor that succeeds on everything with one row. -/
def exOk : String → Except String (List Row) := fun _ => .ok ["row1"]

/-- Executor that fails on "SQL0" with error message A and succeeds elsewhere. -/
def exFailA : String → Except String (List Row) :=
  fun s => if s = "SQL0" then .error "error message A" else .ok ["row1"]

/-- Executor identical to exFailA except for the error message on "SQL0". -/
def exFailB : String → Except String (List Row) :=
  fun s => if s = "SQL0" then .error "error message B" else .ok ["row1"]

/-- Executor that fails on every SQL text. -/
def exBoom : String → Except String (List Row) := fun _ => .error "execution boom"

/-- Refiner that concatenates the failed SQL and the question, the only
two values the source passes to refine_sql. -/
def refConcat : String → String → Except String String :=
  fun sql q => .ok (sql ++ "|" ++ q)

/-- Refiner that always raises. -/
def refBoom : String → String → Except String String := fun _ _ => .error "refiner boom"

/-- C1 counterexample: with a Generator that raises, generate_refine_execute
propagates the exception (Except.error) rather than returning an outcome
with pipeline_status = "error" and initial_sql absent. The generation call
sits outside every try block in the source. -/
theorem C1_counterexample :
    generate_refine_execute genBoom exOk refConcat "sys" "q" =
      .error "generation boom" := rfl

/-- C1 amended: a Generator failure is never captured — the orchestrator
propagates it to its caller unchanged and returns no outcome at all;
only failures of the two execution attempts are captured into the
returned outcome. -/
theorem C1_amended
    (g : String → String → Except String String)
    (ex : String → Except String (List Row))
    (r : String → String → Except String String)
    (sys q e : String) (hgen : g sys q = .error e) :
    generate_refine_execute g ex r sys q = .error e := by
  unfold generate_refine_execute
  rw [hgen]

/-- C1 witness: the amended theorem applied to the concrete failing
generator. -/
theorem C1_amended_witness :
    generate_refine_execute genBoom exOk refConcat "s" "q" =
      .error "generation boom" :=
  C1_amended genBoom exOk refConcat "s" "q" "generation boom" rfl

/-- C2 counterexample: the source calls refine_sql(initial_sql, question)
with two arguments only, so the execution error message never reaches the
refiner. Two runs that differ only in the initial execution error message
produce identical outcomes, and the recorded refined SQL is built from
exactly the failed SQL and the question. -/
theorem C2_counterexample :
    generate_refine_execute genSQL0 exFailA refConcat "sys" "q" =
      generate_refine_execute genSQL0 exFailB refConcat "sys" "q" ∧
    generate_refine_execute genSQL0 exFailA refConcat "sys" "q" =
      .ok ⟨some "SQL0", some "SQL0|q", some "SQL0|q", "refined_success",
           none, some ["row1"]⟩ := ⟨rfl, rfl⟩

/-- C2 amended: the Refiner is invoked with exactly two arguments, the
failed initial SQL and the original question; the execution error is
discarded. Formally, the orchestrator consults the refiner only through
its value at (initial_sql, question): any two refiners that agree there
yield identical results. -/
theorem C2_amended
    (g : String → String → Except String String)
    (ex : String → Except String (List Row))
    (r1 r2 : String → String → Except String String)
    (sys q sql : String)
    (hgen : g sys q = .ok sql)
    (hr : r1 sql q = r2 sql q) :
    generate_refine_execute g ex r1 sys q =
      generate_refine_execute g ex r2 sys q := by
  unfold generate_refine_execute
  rw [hgen]
  dsimp only
  cases he : ex sql with
  | ok rows => rfl
  | error e => rw [hr]

/-- C2 witness: the amended theorem applied to two concrete refiners that
agree at the generated SQL and the question. -/
theorem C2_amended_witness :
    generate_refine_execute genSQL0 exFailA refConcat "sys" "q" =
      generate_refine_execute genSQL0 exFailA refConcat "sys" "q" :=
  C2_amended genSQL0 exFailA refConcat refConcat "sys" "q" "SQL0" rfl rfl

/-- C3 counterexample: when the initial execution fails and the Refiner
raises, the orchestrator propagates the refiner exception (the refine_sql
call is outside every try block) instead of returning an outcome with
pipeline_status = "failed" and error set to the refiner message. -/
theorem C3_counterexample :
    generate_refine_execute genSQL0 exFailA refBoom "sys" "q" =
      .error "refiner boom" := rfl

/-- C3 amended: when the initial execution fails and the Refiner itself
fails, the orchestrator raises the refiner failure to its caller and
returns no outcome; no pipeline_status = "failed" dictionary is built for
a refiner failure. -/
theorem C3_amended
    (g : String → String → Except String String)
    (ex : String → Except String (List Row))
    (r : String → String → Except String String)
    (sys q sql execErr e : String)
    (hgen : g sys q = .ok sql)
    (hexec : ex sql = .error execErr)
    (href : r sql q = .error e) :
    generate_refine_execute g ex r sys q = .error e := by
  unfold generate_refine_execute
  rw [hgen]
  dsimp only
  rw [hexec]
  dsimp only
  rw [href]

/-- C3 witness: the amended theorem applied to the concrete failing
refiner. -/
theorem C3_amended_witness :
    generate_refine_execute genSQL0 exFailA refBoom "sys" "q" =
      .error "refiner boom" :=
  C3_amended genSQL0 exFailA refBoom "sys" "q" "SQL0" "error message A"
    "refiner boom" rfl rfl rfl

/-- C5: for every outcome the orchestrator returns, final_sql is present
iff pipeline_status is "success" or "refined_success", rows is present iff
pipeline_status is "success" or "refined_success", and refined_sql is
present iff a refinement attempt occurred, i.e. generation succeeded and
the initial execution of the generated SQL failed. -/
theorem C5_field_presence
    (g : String → String → Except String String)
    (ex : String → Except String (List Row))
    (r : String → String → Except String String)
    (sys q : String) (out : PipelineOutcome)
    (h : generate_refine_execute g ex r sys q = .ok out) :
    (out.final_sql.isSome ↔
      (out.pipeline_status = "success" ∨ out.pipeline_status = "refined_success")) ∧
    (out.rows.isSome ↔
      (out.pipeline_status = "success" ∨ out.pipeline_status = "refined_success")) ∧
    (out.refined_sql.isSome ↔
      ∃ sql, g sys q = .ok sql ∧ ∃ e, ex sql = .error e) := by
  rcases gre_cases g ex r sys q out h with
    ⟨sql, rows, hg, he, hout⟩ | ⟨sql, e, rf, rows, hg, he, hr, he2, hout⟩ |
    ⟨sql, e, rf, e2, hg, he, hr, he2, hout⟩
  · subst hout
    refine ⟨by simp, by simp, ?_⟩
    simp only [Option.isSome_none, Bool.false_eq_true, false_iff]
    rintro ⟨sql2, hg2, e2, he2⟩
    rw [hg] at hg2
    cases hg2
    rw [he] at he2
    cases he2
  · subst hout
    exact ⟨by simp, by simp, by simp; exact ⟨sql, hg, e, he⟩⟩
  · subst hout
    refine ⟨?_, ?_, by simp; exact ⟨sql, hg, e, he⟩⟩
    · simp only [Option.isSome_none, Bool.false_eq_true, false_iff]
      rintro (hs | hs) <;> simp at hs
    · simp only [Option.isSome_none, Bool.false_eq_true, false_iff]
      rintro (hs | hs) <;> simp at hs

/-- C5 witness: the invariant checked on a concrete successful run. -/
theorem C5_field_presence_witness :
    ((some "SQL0" : Option String).isSome ↔
      ("success" = "success" ∨ "success" = "refined_success")) ∧
    ((some ["row1"] : Option (List Row)).isSome ↔
      ("success" = "success" ∨ "success" = "refined_success")) :=
  ⟨(C5_field_presence genSQL0 exOk refConcat "sys" "q"
      ⟨some "SQL0", none, some "SQL0", "success", none, some ["row1"]⟩ rfl).1,
   (C5_field_presence genSQL0 exOk refConcat "sys" "q"
      ⟨some "SQL0", none, some "SQL0", "success", none, some ["row1"]⟩ rfl).2.1⟩

/-- C6: when the Generator succeeds and the first execution of the
generated SQL succeeds, the orchestrator returns pipeline_status =
"success", refined_sql absent, final_sql equal to initial_sql, error
absent, and rows equal to the execution result. -/
theorem C6_success_path
    (g : String → String → Except String String)
    (ex : String → Except String (List Row))
    (r : String → String → Except String String)
    (sys q sql : String) (rows : List Row)
    (hgen : g sys q = .ok sql)
    (hexec : ex sql = .ok rows) :
    generate_refine_execute g ex r sys q =
      .ok { initial_sql := some sql
            refined_sql := none
            final_sql := some sql
            pipeline_status := "success"
            error := none
            rows := some rows } := by
  unfold generate_refine_execute
  rw [hgen]
  dsimp only
  rw [hexec]

/-- C6 witness: the success path evaluated on concrete collaborators. -/
theorem C6_success_path_witness :
    generate_refine_execute genSQL0 exOk refConcat "sys" "q" =
      .ok { initial_sql := some "SQL0"
            refined_sql := none
            final_sql := some "SQL0"
            pipeline_status := "success"
            error := none
            rows := some ["row1"] } :=
  C6_success_path genSQL0 exOk refConcat "sys" "q" "SQL0" ["row1"] rfl rfl

/-! Embedding of the batch evaluation runner run_pipeline in src/evals.py. -/

/-- One input row of the evaluation dataset (eval_df): the question plus
its ground-truth columns carried through unchanged. -/
structure EvalRow where
  question : String
  groundTruthSQL : Option String
  groundTruthResponse : Option String
  deriving Repr, DecidableEq

/-- The response dictionary produced by handle_query, with the four
optional keys run_pipeline reads via out.get. -/
structure HandlerOut where
  final_sql : Option String
  sql_query : Option String
  query_execution_response : Option (List Row)
  rows : Option (List Row)
  deriving Repr, DecidableEq

/-- One output record appended by run_pipeline for each input row. -/
structure EvalRecord where
  question : String
  userContext : Option String
  generatedSQL : Option String
  generatedResponse : Option (List Row)
  groundTruthSQL : Option String
  groundTruthResponse : Option String
  deriving Repr, DecidableEq

/-- Python "a or b" on two optional strings: None and "" are falsy. -/
def pyOrStr (a b : Option String) : Option String :=
  match a with
  | some s => if s = "" then b else some s
  | none => b

/-- Python "a or b" on two optional row lists: None and [] are falsy. -/
def pyOrRows (a b : Option (List Row)) : Option (List Row) :=
  match a with
  | some l => if l = [] then b else some l
  | none => b

/-- Embedding of run_pipeline from src/evals.py. For each row in order it
awaits fetch_context(q) (a None context is kept as None, a present one is
its string form), builds the request, awaits handle_query, and appends one
record with GeneratedSQL = out.get("final_sql") or out.get("sql_query")
and GeneratedResponse = out.get("query_execution_response") or
out.get("rows"). There is no try/except anywhere in the loop: an
exception from fetch_context or handle_query propagates and aborts the
whole batch. -/
def run_pipeline
    (fetch_context : String → Except String (Option String))
    (handle_query : String → Option String → Except String HandlerOut) :
    List EvalRow → Except String (List EvalRecord)
  | [] => .ok []
  | row :: rest =>
    match fetch_context row.question with
    | .error e => .error e
    | .ok ctx =>
      match handle_query row.question ctx with
      | .error e => .error e
      | .ok out =>
        match run_pipeline fetch_context handle_query rest with
        | .error e => .error e
        | .ok recs =>
          .ok ({ question := row.question
                 userContext := ctx
                 generatedSQL := pyOrStr out.final_sql out.sql_query
                 generatedResponse := pyOrRows out.query_execution_response out.rows
                 groundTruthSQL := row.groundTruthSQL
                 groundTruthResponse := row.groundTruthResponse } :: recs)

/-- Context fetcher that always succeeds with no context. -/
def fcNone : String → Except String (Option String) := fun _ => .ok none

/-- Query handler that raises on question "q2" and succeeds elsewhere. -/
def hqBoom : String → Option String → Except String HandlerOut :=
  fun q _ => if q = "q2" then .error "orchestrator boom"
             else .ok ⟨some "SQL", none, some ["row1"], none⟩

/-- Query handler that succeeds on every question. -/
def hqOk : String → Option String → Except String HandlerOut :=
  fun _ _ => .ok ⟨some "SQL", none, some ["row1"], none⟩

/-- A two-question batch whose second question makes the handler raise. -/
def twoRows : List EvalRow := [⟨"q1", none, none⟩, ⟨"q2", none, none⟩]

/-- C4 counterexample: when the orchestrator raises on the second of two
questions, run_pipeline propagates the exception and aborts the batch —
it returns no list at all, so no outcome with a caught message is
recorded for that question and the output length is not the input
length. -/
theorem C4_counterexample :
    run_pipeline fcNone hqBoom twoRows = .error "orchestrator boom" := rfl

/-- C4 amended: whenever run_pipeline returns a batch at all, it returns
one record per input question, equal in length and matching the input
order; but an orchestrator exception is not caught — it propagates and
aborts the whole batch with no synthesized error outcome. -/
theorem C4_amended
    (fc : String → Except String (Option String))
    (hq : String → Option String → Except String HandlerOut)
    (rows : List EvalRow) (out : List EvalRecord)
    (h : run_pipeline fc hq rows = .ok out) :
    out.length = rows.length ∧
    out.map EvalRecord.question = rows.map EvalRow.question := by
  induction rows generalizing out with
  | nil =>
    unfold run_pipeline at h
    cases h
    exact ⟨rfl, rfl⟩
  | cons row rest ih =>
    unfold run_pipeline at h
    cases hc : fc row.question with
    | error e => rw [hc] at h; cases h
    | ok ctx =>
      rw [hc] at h
      dsimp only at h
      cases hh : hq row.question ctx with
      | error e => rw [hh] at h; cases h
      | ok hout =>
        rw [hh] at h
        dsimp only at h
        cases hrec : run_pipeline fc hq rest with
        | error e => rw [hrec] at h; cases h
        | ok recs =>
          rw [hrec] at h
          dsimp only at h
          cases h
          obtain ⟨hlen, hmap⟩ := ih recs hrec
          constructor
          · simpa using hlen
          · simpa using hmap

/-- C4 witness: the amended theorem applied to a concrete batch on which
every per-question call succeeds. -/
theorem C4_amended_witness :
    ([{ question := "q1", userContext := none, generatedSQL := some "SQL",
        generatedResponse := some ["row1"], groundTruthSQL := none,
        groundTruthResponse := none }] : List EvalRecord).length =
      ([⟨"q1", none, none⟩] : List EvalRow).length ∧
    ([{ question := "q1", userContext := none, generatedSQL := some "SQL",
        generatedResponse := some ["row1"], groundTruthSQL := none,
        groundTruthResponse := none }] : List EvalRecord).map EvalRecord.question =
      ([⟨"q1", none, none⟩] : List EvalRow).map EvalRow.question :=
  C4_amended fcNone hqOk [⟨"q1", none, none⟩] _ rfl

/-! Embedding of compute_metrics from src/llm_databricks_metrics.py.
Timestamps are modelled as optional rationals (seconds): none stands for
a document field that is missing or whose ISO string fails to parse, the
two situations in which datetime.fromisoformat raises inside the
per-record try block. Latencies and the success rate are rationals; the
two-decimal rounding of Python round is modelled with Mathlib round (the
tie-breaking behaviour differs from the banker rounding of floats, and no
claim depends on ties). -/

/-- One Cosmos conversation document restricted to the fields
compute_metrics reads. -/
structure MetricsDoc where
  userId : Option String
  status : Option String
  timestamp_query_asked : Option ℚ
  timestamp_query_generated : Option ℚ
  timestamp_query_executed : Option ℚ
  deriving Repr, DecidableEq

/-- Rounding to two decimal places, modelling round(x, 2). -/
def round2 (x : ℚ) : ℚ := ((round (x * 100) : ℤ) : ℚ) / 100

/-- The LLM latency contribution of one document. The source computes
both latencies inside a single try block reading all three timestamps, so
a record contributes here only when all three parse — even though this
dimension uses only asked and generated. The elapsed value is
(t1 - t0) * 1000 with no sign check: inverted timestamps contribute a
negative latency. -/
def llmElapsedMs (d : MetricsDoc) : Option ℚ :=
  match d.timestamp_query_asked, d.timestamp_query_generated,
        d.timestamp_query_executed with
  | some t0, some t1, some _t2 => some ((t1 - t0) * 1000)
  | _, _, _ => none

/-- The DB latency contribution of one document: (t2 - t1) * 1000 when
all three timestamps parse, following the same single try block. -/
def dbElapsedMs (d : MetricsDoc) : Option ℚ :=
  match d.timestamp_query_asked, d.timestamp_query_generated,
        d.timestamp_query_executed with
  | some _t0, some t1, some t2 => some ((t2 - t1) * 1000)
  | _, _, _ => none

/-- Model of round(np.mean(times), 2) if times else None. -/
def listMeanRounded (xs : List ℚ) : Option ℚ :=
  if xs = [] then none else some (round2 (xs.sum / (xs.length : ℚ)))

/-- Model of pd.Series(xs).value_counts().to_dict(): one entry per
distinct value with its multiplicity. The pandas ordering by descending
frequency is abstracted to first-occurrence order; no claim concerns the
ordering of the buckets. -/
def value_counts (xs : List String) : List (String × ℕ) :=
  xs.dedup.map (fun k => (k, xs.count k))

/-- The dictionary returned by compute_metrics. -/
structure MetricsResult where
  total_queries : ℕ
  successful_queries : ℕ
  failed_queries : ℕ
  success_rate_pct : ℚ
  avg_llm_latency_ms : Option ℚ
  avg_db_latency_ms : Option ℚ
  user_counts : List (String × ℕ)
  deriving Repr, DecidableEq

/-- Embedding of compute_metrics. Mirrors the source line by line:
total = len(items); successes counts d.get('status') == 'Success';
failures = total - successes; success_rate = round(successes / total *
100, 2) if total else 0; the latency lists collect per-record elapsed
milliseconds from the shared try block; the averages are None on empty
lists; users maps d.get('userId', '') and user_counts tallies them. -/
def compute_metrics (items : List MetricsDoc) : MetricsResult :=
  let total := items.length
  let successes := items.countP (fun d => d.status == some "Success")
  let failures := total - successes
  let success_rate :=
    if total ≠ 0 then round2 ((successes : ℚ) / (total : ℚ) * 100) else 0
  let llm_times := items.filterMap llmElapsedMs
  let db_times := items.filterMap dbElapsedMs
  let users := items.map (fun d => d.userId.getD "")
  { total_queries := total
    successful_queries := successes
    failed_queries := failures
    success_rate_pct := success_rate
    avg_llm_latency_ms := listMeanRounded llm_times
    avg_db_latency_ms := listMeanRounded db_times
    user_counts := value_counts users }

/-- A document has all three timestamps present and parseable. -/
def hasAllTimestamps (d : MetricsDoc) : Bool :=
  d.timestamp_query_asked.isSome && d.timestamp_query_generated.isSome &&
    d.timestamp_query_executed.isSome

/-- A record contributes to the LLM latency list exactly when all three
timestamps parse. -/
theorem llmElapsedMs_eq_none (d : MetricsDoc) :
    llmElapsedMs d = none ↔ hasAllTimestamps d = false := by
  rcases d with ⟨u, s, t0, t1, t2⟩
  cases t0 <;> cases t1 <;> cases t2 <;>
    simp [llmElapsedMs, hasAllTimestamps]

/-- A record contributes to the DB latency list exactly when all three
timestamps parse. -/
theorem dbElapsedMs_eq_none (d : MetricsDoc) :
    dbElapsedMs d = none ↔ hasAllTimestamps d = false := by
  rcases d with ⟨u, s, t0, t1, t2⟩
  cases t0 <;> cases t1 <;> cases t2 <;>
    simp [dbElapsedMs, hasAllTimestamps]

/-- The mean of a latency list is absent exactly when the list is empty. -/
theorem listMeanRounded_eq_none (xs : List ℚ) :
    listMeanRounded xs = none ↔ xs = [] := by
  unfold listMeanRounded
  split <;> simp_all

/-- A document whose generated timestamp precedes its asked timestamp by
ten seconds (inverted pair), with all three timestamps parseable. -/
def invDoc : MetricsDoc :=
  { userId := some "u1"
    status := some "Success"
    timestamp_query_asked := some 10
    timestamp_query_generated := some 0
    timestamp_query_executed := some 0 }

/-- C7 counterexample: a record with inverted timestamps (generated
before asked) is NOT excluded from the latency statistics — the single
record set consisting of it yields an LLM latency mean of -10000 ms
rather than an absent mean. Only missing or unparseable timestamps are
excluded by the try/except in the source; no order check exists. -/
theorem C7_counterexample :
    (compute_metrics [invDoc]).total_queries = 1 ∧
    (compute_metrics [invDoc]).avg_llm_latency_ms = some (-10000) := by
  refine ⟨rfl, ?_⟩
  show listMeanRounded ([invDoc].filterMap llmElapsedMs) = some (-10000)
  rw [show [invDoc].filterMap llmElapsedMs = [(0 - 10) * 1000] from rfl]
  unfold listMeanRounded round2
  rw [if_neg (by simp), round_eq]
  norm_num

/-- C7 amended: every latency statistic excludes exactly the records with
a missing or unparseable timestamp while still counting them in the
total, and the reported mean is absent precisely when no record
contributes to that dimension (so no division by zero ever occurs);
records with inverted timestamps are not excluded — they contribute
negative elapsed values. -/
theorem C7_amended (items : List MetricsDoc) :
    (compute_metrics items).total_queries = items.length ∧
    ((compute_metrics items).avg_llm_latency_ms = none ↔
      ∀ d ∈ items, hasAllTimestamps d = false) ∧
    ((compute_metrics items).avg_db_latency_ms = none ↔
      ∀ d ∈ items, hasAllTimestamps d = false) := by
  refine ⟨rfl, ?_, ?_⟩
  · show listMeanRounded (items.filterMap llmElapsedMs) = none ↔ _
    rw [listMeanRounded_eq_none, List.filterMap_eq_nil_iff]
    exact ⟨fun h d hd => (llmElapsedMs_eq_none d).mp (h d hd),
           fun h d hd => (llmElapsedMs_eq_none d).mpr (h d hd)⟩
  · show listMeanRounded (items.filterMap dbElapsedMs) = none ↔ _
    rw [listMeanRounded_eq_none, List.filterMap_eq_nil_iff]
    exact ⟨fun h d hd => (dbElapsedMs_eq_none d).mp (h d hd),
           fun h d hd => (dbElapsedMs_eq_none d).mpr (h d hd)⟩

/-- C8: the success rate is exactly 0 on a zero total — the conditional
expression in the source guards the division with the total, so the
division is never evaluated on an empty record set. -/
theorem C8_zero_total_rate (items : List MetricsDoc)
    (h : (compute_metrics items).total_queries = 0) :
    (compute_metrics items).success_rate_pct = 0 := by
  have hlen : items.length = 0 := h
  simp [compute_metrics, hlen]

/-- C8 witness: the empty record set has total 0 and success rate 0. -/
theorem C8_zero_total_rate_witness :
    (compute_metrics ([] : List MetricsDoc)).total_queries = 0 ∧
    (compute_metrics ([] : List MetricsDoc)).success_rate_pct = 0 :=
  ⟨rfl, C8_zero_total_rate [] rfl⟩

/-- A document with no user identifier field. -/
def noUserDoc : MetricsDoc :=
  { userId := none
    status := some "Success"
    timestamp_query_asked := some 0
    timestamp_query_generated := some 1
    timestamp_query_executed := some 2 }

/-- C9 counterexample: a record with a missing user identifier is grouped
under the empty-string bucket, because the source reads
d.get('userId', '') — the bucket key is "" and no "unknown" bucket
exists. -/
theorem C9_counterexample :
    (compute_metrics [noUserDoc]).user_counts = [("", 1)] := by decide

/-- C9 amended: records with a missing user identifier are grouped under
the empty-string bucket "" (the default of d.get('userId', '')) rather
than an "unknown" bucket; they are not dropped, and the per-user counts
sum to the total number of records. -/
theorem C9_amended (items : List MetricsDoc) :
    (((compute_metrics items).user_counts).map Prod.snd).sum =
      (compute_metrics items).total_queries ∧
    ∀ d ∈ items, d.userId = none →
      "" ∈ ((compute_metrics items).user_counts).map Prod.fst := by
  constructor
  · show ((value_counts (items.map fun d => d.userId.getD "")).map Prod.snd).sum
        = items.length
    unfold value_counts
    rw [List.map_map]
    have hs := List.sum_map_count_dedup_eq_length
      (items.map fun d => d.userId.getD "")
    simpa [Function.comp] using hs
  · intro d hd hnone
    show "" ∈ (value_counts (items.map fun d => d.userId.getD "")).map Prod.fst
    unfold value_counts
    rw [List.map_map]
    have h1 : "" ∈ items.map (fun d => d.userId.getD "") :=
      List.mem_map.mpr ⟨d, hd, by rw [hnone]; rfl⟩
    have h2 := List.mem_dedup.mpr h1
    simpa [Function.comp] using h2

/-- C9 witness: the amended theorem applied to the single record with a
missing user identifier. -/
theorem C9_amended_witness :
    (((compute_metrics [noUserDoc]).user_counts).map Prod.snd).sum =
      (compute_metrics [noUserDoc]).total_queries ∧
    "" ∈ ((compute_metrics [noUserDoc]).user_counts).map Prod.fst :=
  ⟨(C9_amended [noUserDoc]).1,
   (C9_amended [noUserDoc]).2 noUserDoc (by simp) rfl⟩

/-- A document carrying the orchestrator status string "success". -/
def pipeSuccessDoc : MetricsDoc :=
  { userId := some "u1"
    status := some "success"
    timestamp_query_asked := some 0
    timestamp_query_generated := some 1
    timestamp_query_executed := some 2 }

/-- C10: a record is counted successful iff its status is the exact
case-sensitive string "Success", failed_queries is always total minus
successful, and any record carrying a status string that the orchestrator
actually returns ("success", "refined_success" or "failed") is counted as
failed, never successful. -/
theorem C10_success_is_case_sensitive (items : List MetricsDoc) :
    (compute_metrics items).successful_queries =
      items.countP (fun d => d.status == some "Success") ∧
    (compute_metrics items).failed_queries =
      (compute_metrics items).total_queries -
        (compute_metrics items).successful_queries ∧
    ∀ (g : String → String → Except String String)
      (ex : String → Except String (List Row))
      (r : String → String → Except String String)
      (sys q : String) (out : PipelineOutcome) (d : MetricsDoc),
      generate_refine_execute g ex r sys q = .ok out →
      d.status = some out.pipeline_status →
      (d.status == some "Success") = false := by
  refine ⟨rfl, rfl, ?_⟩
  intro g ex r sys q out d hrun hstat
  rcases gre_cases g ex r sys q out hrun with
    ⟨sql, rows, hg, he, hout⟩ | ⟨sql, e, rf, rows, hg, he, hr, he2, hout⟩ |
    ⟨sql, e, rf, e2, hg, he, hr, he2, hout⟩ <;>
    subst hout <;> rw [hstat] <;> dsimp only <;> decide

/-- C10 witness: a record carrying the orchestrator status "success" is
not counted successful by the aggregator. -/
theorem C10_success_is_case_sensitive_witness :
    (compute_metrics [pipeSuccessDoc]).successful_queries =
      [pipeSuccessDoc].countP (fun d => d.status == some "Success") ∧
    (pipeSuccessDoc.status == some "Success") = false :=
  ⟨(C10_success_is_case_sensitive [pipeSuccessDoc]).1,
   (C10_success_is_case_sensitive [pipeSuccessDoc]).2.2 genSQL0 exOk refConcat
     "sys" "q" ⟨some "SQL0", none, some "SQL0", "success", none, some ["row1"]⟩
     pipeSuccessDoc rfl rfl⟩

/-- C7 witness: the amended theorem applied to the concrete record set
with the inverted-timestamp document. -/
theorem C7_amended_witness :
    (compute_metrics [invDoc]).total_queries = [invDoc].length :=
  (C7_amended [invDoc]).1
